import Mathlib

/-!
Verification of the `teapot-nlp` evaluation driver (`src/teapot/main.py`).

The driver is embedded shallowly: command-line options become a `Config`
record, the filesystem and the scorer registry become an `Env` record of
functions, per-sample scores are rational numbers, and every `print` call
becomes an `OutLine` value in an output list.  Side effects that matter for
ordering claims (file-existence checks, custom-scorer loading, scorer
resolution, the second argument parse) are recorded as `GEvent` values in a
trace.  The `scorers` and `utils` modules of the repository are not part of
the excerpt, so the registry operations are modelled from the spec and the
statistics function is kept abstract (theorems quantify over it).
-/

namespace Teapot

/-- One printed line of driver output.  `num` models the terse-mode
`print(f"{value:.3f}")` lines; the other constructors model the labelled
lines, the `"-" * 80` separator and the final success-percentage line of the
default mode.  The numeric payload is the exact rational value handed to the
format string. -/
inductive OutLine where
  | num (v : ℚ)
  | header (s : String)
  | labeled (label : String) (v : ℚ)
  | range (label : String) (lo hi : ℚ)
  | sep
  | successPct (v : ℚ)
  deriving DecidableEq, Repr

/-- Events recording the order of the effectful steps of `get_args`. -/
inductive GEvent where
  | checkFile (name path : String)
  | loadCustom (path : String)
  | resolve (score : String)
  | addArgs (score : String)
  | parseFinal
  deriving DecidableEq, Repr

/-- The message of the `ValueError` raised when neither evaluation side is
fully specified (main.py lines 90-95, typo kept faithfully). -/
def configErrorMsg : String :=
  "You need to specify at lease `--src` and `--adv-src` " ++
  "(for source side evaluation) OR `--ref`, `--out` and `--adv-out`" ++
  " (for target side evaluation)"

/-- The message of the `ValueError` raised when a provided path does not
reference an existing file (main.py lines 100-103). -/
def fileMsg (name filename : String) : String :=
  "Specified file for \"" ++ name ++ "\" (\"" ++ filename ++ "\")" ++
  " does not exist"

/-- The message of the `ValueError` raised when a custom scorer source file
does not exist (main.py lines 108-110). -/
def customMsg (path : String) : String :=
  "Can\x27t find custom scorer source file \"" ++ path ++ "\""

/-- Modelled from the spec: `get_scorer_class` lives in the missing
`scorers` module and "fails with `UnknownScorerError` if name absent"; the
exact message text is unspecified. -/
def unknownScorerMsg (name : String) : String :=
  "Unknown scorer: " ++ name

/-- The message of the `ValueError` raised on a source/target sample-count
mismatch (main.py lines 160-163). -/
def mismatchMsg (n m : ℕ) : String :=
  "The number of samples in the source (" ++ toString n ++
  ") doesn\x27t match the number of samples in the target (" ++
  toString m ++ ")"

/-- `strContains hay needle` holds when `needle` occurs contiguously inside
`hay`. -/
def strContains (hay needle : String) : Prop :=
  needle.toList <:+: hay.toList

instance (hay needle : String) : Decidable (strContains hay needle) :=
  List.decidableInfix needle.toList hay.toList

/-- The command-line options of `get_args` (main.py lines 7-81), with the
argparse defaults. -/
structure Config where
  score : String := "chrf"
  src : Option String := none
  adv_src : Option String := none
  ref : Option String := none
  out : Option String := none
  adv_out : Option String := none
  src_lang : Option String := none
  tgt_lang : Option String := none
  scale : ℚ := 100
  terse : Bool := false
  custom_scores_source : List String := []

/-- The ambient state `main.py` interacts with: `isfile` and `abspath`
model `os.path`; `customRegs path` is the list of scorer names a custom
source file registers when loaded (modelled from the spec, §4.1: loading
"executes its top-level registration side effects"); `builtins` are the
names already present in `scorers.scorers` at startup. -/
structure Env where
  isfile : String → Bool
  abspath : String → String
  customRegs : String → List String
  builtins : List String

/-- `source_side` of main.py line 84: both `--src` and `--adv-src` given. -/
def sourceSideOf (cfg : Config) : Bool :=
  cfg.src.isSome && cfg.adv_src.isSome

/-- `target_side` of main.py lines 85-89: `--ref`, `--out`, `--adv-out` all
given. -/
def targetSideOf (cfg : Config) : Bool :=
  cfg.ref.isSome && cfg.out.isSome && cfg.adv_out.isSome

/-- The five path arguments in the order of the existence-check loop
(main.py line 97). -/
def pathArgs (cfg : Config) : List (String × Option String) :=
  [("src", cfg.src), ("adv_src", cfg.adv_src), ("ref", cfg.ref),
   ("out", cfg.out), ("adv_out", cfg.adv_out)]

/-- The existence-check loop of main.py lines 97-103: skips absent
arguments, records a `checkFile` event for each `os.path.isfile` call, and
stops at the first provided path that does not exist, returning it. -/
def checkFilesLoop (env : Env) :
    List (String × Option String) → List GEvent × Option (String × String)
  | [] => ([], none)
  | (_, none) :: rest => checkFilesLoop env rest
  | (name, some filename) :: rest =>
    if env.isfile filename then
      let r := checkFilesLoop env rest
      (GEvent.checkFile name filename :: r.1, r.2)
    else ([GEvent.checkFile name filename], some (name, filename))

/-- The custom-scorer loading loop of main.py lines 104-111: each listed
file is resolved with `abspath`, must exist, and its registrations are
appended to the registry (registration semantics modelled from the spec,
§4.1: `register` "adds or overwrites the mapping"; for name lookup an
append suffices). -/
def loadCustomLoop (env : Env) :
    List String → List String → List GEvent × Except String (List String)
  | [], reg => ([], Except.ok reg)
  | f :: rest, reg =>
    let path := env.abspath f
    if env.isfile path then
      let r := loadCustomLoop env rest (reg ++ env.customRegs path)
      (GEvent.loadCustom path :: r.1, r.2)
    else ([], Except.error (customMsg path))

/-- The result of a successful `get_args` (main.py line 117): the parsed
arguments are the `Config` itself; alongside it the function returns the
two pipeline-activity flags and (in this model) the resolved scorer class
name. -/
structure ParsedArgs where
  sourceSide : Bool
  targetSide : Bool
  scorerCls : String
  deriving DecidableEq, Repr

/-- `get_args` (main.py lines 7-117) as a trace-producing function: the
configuration check (lines 84-95), the file-existence loop (96-103), the
custom-source loading (104-111), scorer resolution (113), `add_args` and
the second parse (115-116).  Errors are the raised `ValueError` messages. -/
def getArgs (cfg : Config) (env : Env) :
    List GEvent × Except String ParsedArgs :=
  let source_side := sourceSideOf cfg
  let target_side := targetSideOf cfg
  if ¬(source_side || target_side) then ([], Except.error configErrorMsg)
  else
    let c := checkFilesLoop env (pathArgs cfg)
    match c.2 with
    | some nf => (c.1, Except.error (fileMsg nf.1 nf.2))
    | none =>
      let l := loadCustomLoop env cfg.custom_scores_source env.builtins
      match l.2 with
      | Except.error msg => (c.1 ++ l.1, Except.error msg)
      | Except.ok reg =>
        if cfg.score ∈ reg then
          (c.1 ++ l.1 ++
            [GEvent.resolve cfg.score, GEvent.addArgs cfg.score,
             GEvent.parseFinal],
           Except.ok ⟨source_side, target_side, cfg.score⟩)
        else
          (c.1 ++ l.1 ++ [GEvent.resolve cfg.score],
           Except.error (unknownScorerMsg cfg.score))

/-- The per-sample success list of main.py line 181:
`[float(s + d > 1) for s, d in zip(s_src, d_tgt)]`. -/
def success (s_src d_tgt : List ℚ) : List ℚ :=
  (List.zip s_src d_tgt).map fun sd => if 1 < sd.1 + sd.2 then (1 : ℚ) else 0

/-- `success_fraction` of main.py line 182: `sum(success) / N`. -/
def success_fraction (s_src d_tgt : List ℚ) (N : ℕ) : ℚ :=
  (success s_src d_tgt).sum / (N : ℚ)

/-- The source-side print block, main.py lines 139-145 (values scaled by
`scale` before formatting). -/
def sourceOut (terse : Bool) (scale : ℚ) (name : String) (s_src : List ℚ)
    (statsFn : List ℚ → ℚ × ℚ × ℚ × ℚ) : List OutLine :=
  let st := statsFn s_src
  if terse then [OutLine.num (st.1 * scale)]
  else
    [OutLine.header ("Source side preservation (" ++ name ++ "):"),
     OutLine.labeled "Mean" (st.1 * scale),
     OutLine.labeled "Std" (st.2.1 * scale),
     OutLine.range "5%-95%" (st.2.2.1 * scale) (st.2.2.2 * scale)]

/-- The target-side print block, main.py lines 167-178 (separator printed
only when the source side also ran; values scaled by `scale`). -/
def targetOut (ss terse : Bool) (scale : ℚ) (name : String) (d_tgt : List ℚ)
    (statsFn : List ℚ → ℚ × ℚ × ℚ × ℚ) : List OutLine :=
  let st := statsFn d_tgt
  if terse then [OutLine.num (st.1 * scale)]
  else
    (if ss then [OutLine.sep] else []) ++
    [OutLine.header
       ("Target side degradation (relative decrease in " ++ name ++ "):"),
     OutLine.labeled "Mean" (st.1 * scale),
     OutLine.labeled "Std" (st.2.1 * scale),
     OutLine.range "5%-95%" (st.2.2.1 * scale) (st.2.2.2 * scale)]

/-- The success print block, main.py lines 184-188: in both modes the
printed value is `success_fraction * 100`, a literal 100 in the source. -/
def successOut (terse : Bool) (f : ℚ) : List OutLine :=
  if terse then [OutLine.num (f * 100)]
  else [OutLine.sep, OutLine.successPct (f * 100)]

/-- The body of `main` (main.py lines 126-188) after the scorer calls,
taking the two per-sample score lists `s_src` and `d_tgt` as the results of
`scorer.score` / `scorer.rd_score` and the statistics function
(`utils.stats`, not in the excerpt) abstractly.  Returns the lines printed
(in order) and the optional raised `ValueError` message.  Mirrors the `N`
tracking: `N` is set by the source side, the target side adopts
`len(d_tgt)` when `N` is unset and raises on mismatch otherwise (after the
source block already printed); the success block runs only when both sides
did. -/
def mainBody (ss ts terse : Bool) (scale : ℚ) (name : String)
    (s_src d_tgt : List ℚ) (statsFn : List ℚ → ℚ × ℚ × ℚ × ℚ) :
    List OutLine × Option String :=
  let srcOut : List OutLine :=
    if ss then sourceOut terse scale name s_src statsFn else []
  if ts then
    if ss then
      if d_tgt.length ≠ s_src.length then
        (srcOut, some (mismatchMsg s_src.length d_tgt.length))
      else
        (srcOut ++ targetOut ss terse scale name d_tgt statsFn ++
           successOut terse (success_fraction s_src d_tgt s_src.length),
         none)
    else
      (srcOut ++ targetOut ss terse scale name d_tgt statsFn, none)
  else (srcOut, none)

/-- A scorer instance as `main` uses it: its `score` and `rd_score`
methods and its display name (the scorer variants live in the missing
`scorers` module; `main` only calls these three members). -/
structure Scorer where
  scoreFn : List String → List String → Option String → List ℚ
  rdScoreFn : List String → List String → List String → Option String → List ℚ
  name : String

/-- The whole program run: `get_args`, then the `main` body with
`s_src = scorer.score(loadtxt(adv_src), loadtxt(src), lang=src_lang)` and
`d_tgt = scorer.rd_score(loadtxt(adv_out), loadtxt(out), loadtxt(ref),
lang=tgt_lang)`; `files` models `utils.loadtxt`. -/
def program (cfg : Config) (env : Env) (files : String → List String)
    (scorer : Scorer) (statsFn : List ℚ → ℚ × ℚ × ℚ × ℚ) :
    List GEvent × List OutLine × Option String :=
  match getArgs cfg env with
  | (ev, Except.error msg) => (ev, [], some msg)
  | (ev, Except.ok r) =>
    (ev,
     mainBody r.sourceSide r.targetSide cfg.terse cfg.scale scorer.name
       (scorer.scoreFn (files (cfg.adv_src.getD "")) (files (cfg.src.getD ""))
         cfg.src_lang)
       (scorer.rdScoreFn (files (cfg.adv_out.getD ""))
         (files (cfg.out.getD "")) (files (cfg.ref.getD "")) cfg.tgt_lang)
       statsFn)

/-- The rational values handed to the numeric format specifiers of the
output, in print order. -/
def numericValues : List OutLine → List ℚ
  | [] => []
  | OutLine.num v :: r => v :: numericValues r
  | OutLine.header _ :: r => numericValues r
  | OutLine.labeled _ v :: r => v :: numericValues r
  | OutLine.range _ lo hi :: r => lo :: hi :: numericValues r
  | OutLine.sep :: r => numericValues r
  | OutLine.successPct v :: r => v :: numericValues r

/-! ## Helper lemmas -/

theorem strContains_of_toList (hay needle : String) (pre post : List Char)
    (h : hay.toList = pre ++ needle.toList ++ post) : strContains hay needle :=
  ⟨pre, post, h.symm⟩

theorem success_mem_cases (s_src d_tgt : List ℚ) :
    ∀ x ∈ success s_src d_tgt, x = 0 ∨ x = 1 := by
  intro x hx
  rcases List.mem_map.1 hx with ⟨sd, _, rfl⟩
  by_cases h : 1 < sd.1 + sd.2 <;> simp [h]

theorem sum_bounds_of_bool (l : List ℚ) (h : ∀ x ∈ l, x = 0 ∨ x = 1) :
    0 ≤ l.sum ∧ l.sum ≤ (l.length : ℚ) := by
  induction l with
  | nil => simp
  | cons a t ih =>
    have ha := h a (List.mem_cons_self a t)
    have ht := ih fun x hx => h x (List.mem_cons_of_mem a hx)
    constructor
    · have : (0:ℚ) ≤ a := by rcases ha with rfl | rfl <;> norm_num
      simpa [List.sum_cons] using add_nonneg this ht.1
    · have hle : a ≤ 1 := by rcases ha with rfl | rfl <;> norm_num
      have hsum : a + t.sum ≤ 1 + (t.length : ℚ) := add_le_add hle ht.2
      simp only [List.sum_cons, List.length_cons, Nat.cast_succ]
      linarith

theorem success_length (s_src d_tgt : List ℚ) :
    (success s_src d_tgt).length = min s_src.length d_tgt.length := by
  simp [success]

/-- Statements C1 etc. refer to the per-sample success values by index. -/
theorem success_get (s_src d_tgt : List ℚ) (i : ℕ)
    (h1 : i < s_src.length) (h2 : i < d_tgt.length)
    (h3 : i < (success s_src d_tgt).length) :
    (success s_src d_tgt).get ⟨i, h3⟩ =
      if 1 < s_src.get ⟨i, h1⟩ + d_tgt.get ⟨i, h2⟩ then (1:ℚ) else 0 := by
  simp [success, List.get_eq_getElem, List.getElem_map, List.getElem_zip]

theorem numericValues_append (a b : List OutLine) :
    numericValues (a ++ b) = numericValues a ++ numericValues b := by
  induction a with
  | nil => rfl
  | cons x t ih => cases x <;> simp [numericValues, ih]

theorem checkFilesLoop_ne_nil (env : Env) (l : List (String × Option String))
    (h : ∃ p ∈ l, p.2.isSome = true) : (checkFilesLoop env l).1 ≠ [] := by
  induction l with
  | nil => rcases h with ⟨p, hp, _⟩; cases hp
  | cons a t ih =>
    rcases a with ⟨n, f⟩
    cases f with
    | none =>
      have ht : ∃ p ∈ t, p.2.isSome = true := by
        rcases h with ⟨p, hp, hps⟩
        rcases List.mem_cons.1 hp with rfl | hpt
        · cases hps
        · exact ⟨p, hpt, hps⟩
      simpa [checkFilesLoop] using ih ht
    | some fn =>
      by_cases hf : env.isfile fn = true <;> simp [checkFilesLoop, hf]

theorem checkFilesLoop_spec (env : Env) (l : List (String × Option String))
    (name path : String) (h : (checkFilesLoop env l).2 = some (name, path)) :
    (name, some path) ∈ l ∧ env.isfile path = false ∧
    ∀ e ∈ (checkFilesLoop env l).1, ∃ a b, e = GEvent.checkFile a b := by
  induction l with
  | nil => simp [checkFilesLoop] at h
  | cons a t ih =>
    rcases a with ⟨n, f⟩
    cases f with
    | none =>
      simp only [checkFilesLoop] at h ⊢
      rcases ih h with ⟨h1, h2, h3⟩
      exact ⟨List.mem_cons_of_mem _ h1, h2, h3⟩
    | some fn =>
      by_cases hf : env.isfile fn = true
      · simp only [checkFilesLoop, hf, if_true] at h ⊢
        rcases ih h with ⟨h1, h2, h3⟩
        refine ⟨List.mem_cons_of_mem _ h1, h2, ?_⟩
        intro e he
        rcases List.mem_cons.1 he with rfl | he2
        · exact ⟨n, fn, rfl⟩
        · exact h3 e he2
      · simp only [checkFilesLoop, hf, if_false] at h ⊢
        rcases h with ⟨rfl, rfl⟩
        exact ⟨List.mem_cons_self _ _, by simpa using hf,
          fun e he => ⟨name, path, by simpa using he⟩⟩

theorem getArgs_trace_shape (cfg : Config) (env : Env)
    (hor : (sourceSideOf cfg || targetSideOf cfg) = true) :
    ∃ rest r, getArgs cfg env =
      ((checkFilesLoop env (pathArgs cfg)).1 ++ rest, r) := by
  simp only [getArgs]
  rw [if_neg (by simp [hor])]
  rcases hc : (checkFilesLoop env (pathArgs cfg)).2 with _ | nf
  · rcases hl : (loadCustomLoop env cfg.custom_scores_source env.builtins).2
      with msg | reg
    · exact ⟨(loadCustomLoop env cfg.custom_scores_source env.builtins).1,
        Except.error msg, by simp [hl]⟩
    · by_cases hm : cfg.score ∈ reg
      · exact ⟨(loadCustomLoop env cfg.custom_scores_source env.builtins).1 ++
          [GEvent.resolve cfg.score, GEvent.addArgs cfg.score,
           GEvent.parseFinal],
          Except.ok ⟨sourceSideOf cfg, targetSideOf cfg, cfg.score⟩,
          by simp [hl, hm]⟩
      · exact ⟨(loadCustomLoop env cfg.custom_scores_source env.builtins).1 ++
          [GEvent.resolve cfg.score],
          Except.error (unknownScorerMsg cfg.score), by simp [hl, hm]⟩
  · exact ⟨[], Except.error (fileMsg nf.1 nf.2), by simp⟩

theorem loadCustomLoop_ok (env : Env) (l : List String) (reg : List String)
    (h : ∀ f ∈ l, env.isfile (env.abspath f) = true) :
    loadCustomLoop env l reg =
      (l.map fun f => GEvent.loadCustom (env.abspath f),
       Except.ok (reg ++ l.flatMap fun f => env.customRegs (env.abspath f))) := by
  induction l generalizing reg with
  | nil => simp [loadCustomLoop]
  | cons a t ih =>
    have ha := h a (List.mem_cons_self a t)
    have ht : ∀ f ∈ t, env.isfile (env.abspath f) = true :=
      fun f hf => h f (List.mem_cons_of_mem a hf)
    simp [loadCustomLoop, ha, ih (reg ++ env.customRegs (env.abspath a)) ht]

/-! ## Claims -/

/-- C1: when both pipelines run with equal sample counts N ≥ 1, the driver
derives the per-sample success value `1.0 if s_src[i] + d_tgt[i] > 1 else
0.0` for every index i < N and reports the success fraction equal to the
sum of these values divided by N. -/
theorem C1_success_metric (terse : Bool) (scale : ℚ) (name : String)
    (s_src d_tgt : List ℚ) (statsFn : List ℚ → ℚ × ℚ × ℚ × ℚ)
    (hlen : d_tgt.length = s_src.length) ( _hN : 1 ≤ s_src.length) :
    mainBody true true terse scale name s_src d_tgt statsFn =
      (sourceOut terse scale name s_src statsFn ++
         targetOut true terse scale name d_tgt statsFn ++
         successOut terse (success_fraction s_src d_tgt s_src.length),
       none) ∧
    success_fraction s_src d_tgt s_src.length =
      (success s_src d_tgt).sum / (s_src.length : ℚ) ∧
    ∀ i (h1 : i < s_src.length) (h2 : i < d_tgt.length)
      (h3 : i < (success s_src d_tgt).length),
      (success s_src d_tgt).get ⟨i, h3⟩ =
        if 1 < s_src.get ⟨i, h1⟩ + d_tgt.get ⟨i, h2⟩ then (1:ℚ) else 0 := by
  refine ⟨?_, rfl, fun i h1 h2 h3 => success_get s_src d_tgt i h1 h2 h3⟩
  simp [mainBody, hlen]

/-- Witness for C1 at s_src = [1, 0], d_tgt = [1, 1]: sample 0 succeeds
(1 + 1 > 1), sample 1 does not (0 + 1 = 1), fraction 1/2, printed as 50. -/
theorem C1_success_metric_witness :
    1 ≤ [(1:ℚ), 0].length ∧
    mainBody true true true 100 "chrf" [(1:ℚ), 0] [(1:ℚ), 1]
        (fun _ => ((0:ℚ), 0, 0, 0)) =
      ([OutLine.num 0, OutLine.num 0, OutLine.num 50], none) :=
  ⟨by decide,
   by
     have h := (C1_success_metric true 100 "chrf" [(1:ℚ), 0] [(1:ℚ), 1]
       (fun _ => ((0:ℚ), 0, 0, 0)) rfl (by decide)).1
     rw [h]
     norm_num [sourceOut, targetOut, successOut, success_fraction, success]⟩

/-- C2: with both pipelines active, if the score call returned N samples
and the rd_score call returned M ≠ N samples, the driver raises the
mismatch error naming both counts; only the source block was printed, so
no target-side statistics and no success metric were computed (the result
is the same for every statistics function). -/
theorem C2_sample_count_mismatch (terse : Bool) (scale : ℚ) (name : String)
    (s_src d_tgt : List ℚ) (hne : s_src.length ≠ d_tgt.length) :
    (∀ statsFn, mainBody true true terse scale name s_src d_tgt statsFn =
       (sourceOut terse scale name s_src statsFn,
        some (mismatchMsg s_src.length d_tgt.length))) ∧
    strContains (mismatchMsg s_src.length d_tgt.length)
      (toString s_src.length) ∧
    strContains (mismatchMsg s_src.length d_tgt.length)
      (toString d_tgt.length) := by
  have h : d_tgt.length ≠ s_src.length := fun e => hne e.symm
  refine ⟨fun statsFn => by simp [mainBody, h], ?_, ?_⟩
  · exact strContains_of_toList _ _
      "The number of samples in the source (".toList
      ((") doesn\x27t match the number of samples in the target (" ++
        toString d_tgt.length ++ ")").toList)
      (by simp [mismatchMsg, String.toList, String.data_append])
  · exact strContains_of_toList _ _
      (("The number of samples in the source (" ++ toString s_src.length ++
        ") doesn\x27t match the number of samples in the target (").toList)
      ")".toList
      (by simp [mismatchMsg, String.toList, String.data_append])

/-- Witness for C2 at s_src = [1], d_tgt = [] (counts 1 vs 0). -/
theorem C2_sample_count_mismatch_witness :
    [(1:ℚ)].length ≠ ([] : List ℚ).length ∧
    mainBody true true true 100 "chrf" [(1:ℚ)] [] (fun _ => ((0:ℚ), 0, 0, 0)) =
      ([OutLine.num 0], some (mismatchMsg 1 0)) ∧
    strContains (mismatchMsg 1 0) (toString 1) ∧
    strContains (mismatchMsg 1 0) (toString 0) := by
  have h := C2_sample_count_mismatch true 100 "chrf" [(1:ℚ)] [] (by decide)
  refine ⟨by decide, ?_, h.2.1, h.2.2⟩
  rw [h.1 (fun _ => ((0:ℚ), 0, 0, 0))]
  norm_num [sourceOut]

/-- C3: when the source side is not fully configured and the target side is
not fully configured, the program fails with the configuration error, with
an empty event trace (no file-existence checks) and the same result for
every filesystem, scorer and statistics function — so before any file
existence check or file read. -/
theorem C3_config_error (cfg : Config)
    (hs : cfg.src = none ∨ cfg.adv_src = none)
    (ht : cfg.ref = none ∨ cfg.out = none ∨ cfg.adv_out = none) :
    ∀ env files scorer statsFn,
      program cfg env files scorer statsFn = ([], [], some configErrorMsg) := by
  intro env files scorer statsFn
  have hss : sourceSideOf cfg = false := by
    rcases hs with h | h <;> simp [sourceSideOf, h]
  have hts : targetSideOf cfg = false := by
    rcases ht with h | h | h <;> simp [targetSideOf, h]
  simp [program, getArgs, hss, hts]

/-- Witness for C3: the all-defaults invocation (no path argument at all)
fails with the configuration error and an empty trace. -/
theorem C3_config_error_witness :
    program {} ⟨fun _ => true, id, fun _ => [], ["chrf"]⟩ (fun _ => [])
        ⟨fun _ _ _ => [], fun _ _ _ _ => [], "chrf"⟩ (fun _ => (0, 0, 0, 0)) =
      ([], [], some configErrorMsg) :=
  C3_config_error {} (Or.inl rfl) (Or.inl rfl) _ _ _ _

/-- C10: whenever the success fraction is computed (both pipelines active,
equal sample counts N ≥ 1), its value lies in [0, 1], regardless of the
score values the scorer returned. -/
theorem C10_success_fraction_bounds (s_src d_tgt : List ℚ) (N : ℕ)
    (h1 : s_src.length = N) (h2 : d_tgt.length = N) (hN : 1 ≤ N) :
    0 ≤ success_fraction s_src d_tgt N ∧
    success_fraction s_src d_tgt N ≤ 1 := by
  have hb := sum_bounds_of_bool (success s_src d_tgt)
    (success_mem_cases s_src d_tgt)
  have hlen : (success s_src d_tgt).length = N := by
    simp [success_length, h1, h2]
  have hNpos : (0:ℚ) < N := by
    exact_mod_cast Nat.lt_of_lt_of_le Nat.zero_lt_one hN
  constructor
  · exact div_nonneg hb.1 hNpos.le
  · rw [success_fraction, div_le_one hNpos]
    calc (success s_src d_tgt).sum
        ≤ ((success s_src d_tgt).length : ℚ) := hb.2
      _ = (N : ℚ) := by rw [hlen]

/-- Witness for C10 at s_src = [5], d_tgt = [-3] (scores far outside
[0, 1]): the fraction still lies in [0, 1]. -/
theorem C10_success_fraction_bounds_witness :
    ([(5:ℚ)].length = 1 ∧ [(-3:ℚ)].length = 1 ∧ 1 ≤ 1) ∧
    0 ≤ success_fraction [(5:ℚ)] [(-3:ℚ)] 1 ∧
    success_fraction [(5:ℚ)] [(-3:ℚ)] 1 ≤ 1 :=
  ⟨⟨rfl, rfl, le_refl 1⟩,
   C10_success_fraction_bounds [(5:ℚ)] [(-3:ℚ)] 1 rfl rfl (le_refl 1)⟩

/-- C4 (counterexample): with `--scale 1`, both pipelines active on
s_src = [1], d_tgt = [1], the printed success value is 100 — the fraction
times the literal 100 — whereas the claim (success fraction multiplied by
`--scale`) would require 1 · 1 = 1.  So not every printed value is
multiplied by `--scale`. -/
theorem C4_scale_counterexample :
    mainBody true true true 1 "chrf" [(1:ℚ)] [(1:ℚ)]
        (fun _ => ((0:ℚ), 0, 0, 0)) =
      ([OutLine.num 0, OutLine.num 0, OutLine.num 100], none) ∧
    success_fraction [(1:ℚ)] [(1:ℚ)] [(1:ℚ)].length * 1 ≠ (100:ℚ) := by
  constructor
  · norm_num [mainBody, sourceOut, targetOut, successOut,
      success_fraction, success]
  · norm_num [success_fraction, success]

/-- C4 (amended): every source-side and target-side statistic the program
prints is multiplied by `--scale` before printing, while the success
fraction is multiplied by the literal 100, independently of `--scale`. -/
theorem C4_scaling_amended (terse : Bool) (scale : ℚ) (name : String)
    (s_src d_tgt : List ℚ) (statsFn : List ℚ → ℚ × ℚ × ℚ × ℚ)
    (hlen : d_tgt.length = s_src.length) ( _hN : 1 ≤ s_src.length) :
    numericValues (mainBody true true terse scale name s_src d_tgt statsFn).1 =
      (if terse then [(statsFn s_src).1 * scale]
       else [(statsFn s_src).1 * scale, (statsFn s_src).2.1 * scale,
             (statsFn s_src).2.2.1 * scale, (statsFn s_src).2.2.2 * scale]) ++
      (if terse then [(statsFn d_tgt).1 * scale]
       else [(statsFn d_tgt).1 * scale, (statsFn d_tgt).2.1 * scale,
             (statsFn d_tgt).2.2.1 * scale, (statsFn d_tgt).2.2.2 * scale]) ++
      [success_fraction s_src d_tgt s_src.length * 100] := by
  cases terse <;>
    simp [mainBody, hlen, sourceOut, targetOut, successOut,
      numericValues_append, numericValues]

/-- Witness for the amended C4 at scale 7, s_src = [1], d_tgt = [1],
constant statistics (2, 3, 4, 5): stats print 14, 21, 28, 35 (×7 each) and
the success value prints 100 (fraction 1 × literal 100). -/
theorem C4_scaling_amended_witness :
    numericValues (mainBody true true false 7 "chrf" [(1:ℚ)] [(1:ℚ)]
        (fun _ => ((2:ℚ), 3, 4, 5))).1 =
      [(14:ℚ), 21, 28, 35, 14, 21, 28, 35, 100] := by
  have h := C4_scaling_amended false 7 "chrf" [(1:ℚ)] [(1:ℚ)]
    (fun _ => ((2:ℚ), 3, 4, 5)) rfl (by decide)
  rw [h]
  norm_num [success_fraction, success]

/-- C5 (counterexample): `--src` without `--adv-src`, together with a full
target-side group, is accepted by `get_args` (the source pipeline is simply
inactive), so a partially given group does not by itself make the program
fail. -/
theorem C5_group_counterexample :
    (getArgs
      ⟨"chrf", some "s", none, some "r", some "o", some "a",
        none, none, 100, false, []⟩
      ⟨fun _ => true, id, fun _ => [], ["chrf"]⟩).2 =
      Except.ok ⟨false, true, "chrf"⟩ := rfl

/-- C5 (amended): the configuration check rejects an invocation exactly
when neither file-path group is complete; a partial group combined with a
complete other group passes the check, the partial group's pipeline being
inactive (its supplied paths are still existence-checked). -/
theorem C5_group_check_amended (cfg : Config) (env : Env) :
    getArgs cfg env = ([], Except.error configErrorMsg) ↔
      sourceSideOf cfg = false ∧ targetSideOf cfg = false := by
  constructor
  · intro h
    cases hss : sourceSideOf cfg with
    | false =>
      cases hts : targetSideOf cfg with
      | false => exact ⟨rfl, rfl⟩
      | true =>
        exfalso
        have hprov : ∃ p ∈ pathArgs cfg, p.2.isSome = true := by
          refine ⟨("ref", cfg.ref), by simp [pathArgs], ?_⟩
          have ht2 := hts
          simp only [targetSideOf, Bool.and_eq_true] at ht2
          exact ht2.1.1
        obtain ⟨rest, r, hshape⟩ := getArgs_trace_shape cfg env
          (by simp [hss, hts])
        rw [h] at hshape
        have hnil : (checkFilesLoop env (pathArgs cfg)).1 ++ rest = [] :=
          (congrArg Prod.fst hshape).symm
        exact checkFilesLoop_ne_nil env (pathArgs cfg) hprov
          (List.append_eq_nil.1 hnil).1
    | true =>
      exfalso
      have hprov : ∃ p ∈ pathArgs cfg, p.2.isSome = true := by
        refine ⟨("src", cfg.src), by simp [pathArgs], ?_⟩
        have hs2 := hss
        simp only [sourceSideOf, Bool.and_eq_true] at hs2
        exact hs2.1
      obtain ⟨rest, r, hshape⟩ := getArgs_trace_shape cfg env (by simp [hss])
      rw [h] at hshape
      have hnil : (checkFilesLoop env (pathArgs cfg)).1 ++ rest = [] :=
        (congrArg Prod.fst hshape).symm
      exact checkFilesLoop_ne_nil env (pathArgs cfg) hprov
        (List.append_eq_nil.1 hnil).1
  · intro h
    simp [getArgs, h.1, h.2]

/-- C6: a provided path argument that does not name an existing file makes
the program fail: the run raises the error built from the offending
argument name and path (both occur in the message), the event trace holds
only file-existence checks (no scorer resolution, no loading, no parse),
and the result is the same for every file content, scorer and statistics
function — the failure precedes any scorer invocation or statistics
computation. -/
theorem C6_missing_file_error (cfg : Config) (env : Env) (name path : String)
    (hconf : (sourceSideOf cfg || targetSideOf cfg) = true)
    (hm : (checkFilesLoop env (pathArgs cfg)).2 = some (name, path)) :
    (∀ files scorer statsFn,
       program cfg env files scorer statsFn =
         ((checkFilesLoop env (pathArgs cfg)).1, [],
          some (fileMsg name path))) ∧
    (∀ e ∈ (checkFilesLoop env (pathArgs cfg)).1,
       ∃ a b, e = GEvent.checkFile a b) ∧
    (name, some path) ∈ pathArgs cfg ∧
    env.isfile path = false ∧
    strContains (fileMsg name path) name ∧
    strContains (fileMsg name path) path := by
  obtain ⟨h1, h2, h3⟩ := checkFilesLoop_spec env (pathArgs cfg) name path hm
  refine ⟨?_, h3, h1, h2, ?_, ?_⟩
  · intro files scorer statsFn
    have hg : getArgs cfg env =
        ((checkFilesLoop env (pathArgs cfg)).1,
         Except.error (fileMsg name path)) := by
      simp only [getArgs]
      rw [if_neg (by simp [hconf])]
      simp [hm]
    simp [program, hg]
  · exact strContains_of_toList _ _ "Specified file for \"".toList
      (("\" (\"" ++ path ++ "\")" ++ " does not exist").toList)
      (by simp [fileMsg, String.toList, String.data_append])
  · exact strContains_of_toList _ _
      (("Specified file for \"" ++ name ++ "\" (\"").toList)
      (("\")" ++ " does not exist").toList)
      (by simp [fileMsg, String.toList, String.data_append])

/-- Witness for C6: `--src a --adv-src b` where only `a` exists: the run
fails naming `adv_src` and `b`, after checking `src` and `adv_src` only. -/
theorem C6_missing_file_error_witness :
    (checkFilesLoop ⟨fun s => s == "a", id, fun _ => [], ["chrf"]⟩
        (pathArgs ⟨"chrf", some "a", some "b", none, none, none, none, none,
          100, false, []⟩)).2 = some ("adv_src", "b") ∧
    program
      ⟨"chrf", some "a", some "b", none, none, none, none, none,
        100, false, []⟩
      ⟨fun s => s == "a", id, fun _ => [], ["chrf"]⟩ (fun _ => [])
      ⟨fun _ _ _ => [], fun _ _ _ _ => [], "chrf"⟩ (fun _ => (0, 0, 0, 0)) =
      ([GEvent.checkFile "src" "a", GEvent.checkFile "adv_src" "b"], [],
       some (fileMsg "adv_src" "b")) := by
  refine ⟨rfl, ?_⟩
  have h := (C6_missing_file_error
    ⟨"chrf", some "a", some "b", none, none, none, none, none,
      100, false, []⟩
    ⟨fun s => s == "a", id, fun _ => [], ["chrf"]⟩ "adv_src" "b"
    rfl rfl).1 (fun _ => [])
    ⟨fun _ _ _ => [], fun _ _ _ _ => [], "chrf"⟩ (fun _ => (0, 0, 0, 0))
  rw [h]
  rfl

/-- C7: on a successful `get_args`, every listed custom-scores source file
is loaded (a `loadCustom` event for its absolute path) strictly before the
scorer resolution, the `add_args` hook and the final parse, which close the
trace; and a scorer name registered by a custom source file resolves
successfully even when absent from the built-in registry. -/
theorem C7_custom_sources_first (cfg : Config) (env : Env)
    (hconf : (sourceSideOf cfg || targetSideOf cfg) = true)
    (hfiles : (checkFilesLoop env (pathArgs cfg)).2 = none)
    (hcustom : ∀ f ∈ cfg.custom_scores_source,
       env.isfile (env.abspath f) = true)
    (hreg : ∃ f ∈ cfg.custom_scores_source,
       cfg.score ∈ env.customRegs (env.abspath f)) :
    ∃ pre, getArgs cfg env =
        (pre ++ [GEvent.resolve cfg.score, GEvent.addArgs cfg.score,
           GEvent.parseFinal],
         Except.ok ⟨sourceSideOf cfg, targetSideOf cfg, cfg.score⟩) ∧
      ∀ f ∈ cfg.custom_scores_source,
        GEvent.loadCustom (env.abspath f) ∈ pre := by
  have hload := loadCustomLoop_ok env cfg.custom_scores_source
    env.builtins hcustom
  have hmem : cfg.score ∈ env.builtins ++
      cfg.custom_scores_source.flatMap
        (fun f => env.customRegs (env.abspath f)) := by
    rcases hreg with ⟨f, hf, hs⟩
    exact List.mem_append_right _ (List.mem_flatMap.2 ⟨f, hf, hs⟩)
  refine ⟨(checkFilesLoop env (pathArgs cfg)).1 ++
    cfg.custom_scores_source.map
      (fun f => GEvent.loadCustom (env.abspath f)), ?_, ?_⟩
  · simp only [getArgs]
    rw [if_neg (by simp [hconf])]
    simp [hfiles, hload, hmem]
  · intro f hf
    exact List.mem_append_right _ (List.mem_map.2 ⟨f, hf, rfl⟩)

/-- Witness for C7: a custom file `c.py` registering `mysc`, selected via
`--score mysc` although only `chrf` is built in: resolution succeeds. -/
theorem C7_custom_sources_first_witness :
    (getArgs
      ⟨"mysc", some "a", some "b", none, none, none, none, none,
        100, false, ["c.py"]⟩
      ⟨fun _ => true, id, fun _ => ["mysc"], ["chrf"]⟩).2 =
      Except.ok ⟨true, false, "mysc"⟩ := by
  obtain ⟨pre, h1, _⟩ := C7_custom_sources_first
    ⟨"mysc", some "a", some "b", none, none, none, none, none,
      100, false, ["c.py"]⟩
    ⟨fun _ => true, id, fun _ => ["mysc"], ["chrf"]⟩
    rfl rfl (by simp) ⟨"c.py", by simp, by simp⟩
  rw [h1]
  rfl

/-- C8: with `--terse` set, the output is exactly the numeric lines, in
order: scaled source mean iff the source pipeline is active, scaled target
mean iff the target pipeline is active, success value iff both are — and
every printed line is a bare numeric line. -/
theorem C8_terse_output (ss ts : Bool) (scale : ℚ) (name : String)
    (s_src d_tgt : List ℚ) (statsFn : List ℚ → ℚ × ℚ × ℚ × ℚ)
    (hlen : ss = true → ts = true → d_tgt.length = s_src.length)
    ( _hs : ss = true → 1 ≤ s_src.length)
    ( _ht : ts = true → 1 ≤ d_tgt.length) :
    (mainBody ss ts true scale name s_src d_tgt statsFn).2 = none ∧
    (mainBody ss ts true scale name s_src d_tgt statsFn).1 =
      (if ss then [OutLine.num ((statsFn s_src).1 * scale)] else []) ++
      (if ts then [OutLine.num ((statsFn d_tgt).1 * scale)] else []) ++
      (if ss && ts then
         [OutLine.num (success_fraction s_src d_tgt s_src.length * 100)]
       else []) ∧
    ∀ l ∈ (mainBody ss ts true scale name s_src d_tgt statsFn).1,
      ∃ v, l = OutLine.num v := by
  cases ss with
  | false =>
    cases ts <;> simp [mainBody, sourceOut, targetOut, successOut]
  | true =>
    cases ts with
    | false => simp [mainBody, sourceOut]
    | true =>
      simp [mainBody, sourceOut, targetOut, successOut, hlen rfl rfl]

/-- Witness for C8 with only the source pipeline active: a single bare
numeric line, the scaled source mean. -/
theorem C8_terse_output_witness :
    (mainBody true false true 100 "chrf" [(1:ℚ)] []
        (fun _ => ((2:ℚ), 0, 0, 0))).2 = none ∧
    (mainBody true false true 100 "chrf" [(1:ℚ)] []
        (fun _ => ((2:ℚ), 0, 0, 0))).1 = [OutLine.num 200] := by
  have h := C8_terse_output true false 100 "chrf" [(1:ℚ)] []
    (fun _ => ((2:ℚ), 0, 0, 0)) (by simp) (by simp) (by simp)
  refine ⟨h.1, ?_⟩
  rw [h.2.1]
  norm_num

/-- C9: existence validation covers a supplied path of an inactive
pipeline: with `--src`/`--adv-src` present and existing but `--ref` naming
a missing file and `--out` absent, the target pipeline is inactive and yet
the run fails naming `ref`, for every file content, scorer and statistics
function. -/
theorem C9_inactive_pipeline_validation (cfg : Config) (env : Env)
    (ps pa pr : String)
    (h1 : cfg.src = some ps) (h2 : cfg.adv_src = some pa)
    (h3 : env.isfile ps = true) (h4 : env.isfile pa = true)
    (h5 : cfg.ref = some pr) (h6 : env.isfile pr = false)
    (h7 : cfg.out = none) :
    targetSideOf cfg = false ∧
    ∀ files scorer statsFn,
      program cfg env files scorer statsFn =
        ([GEvent.checkFile "src" ps, GEvent.checkFile "adv_src" pa,
          GEvent.checkFile "ref" pr], [], some (fileMsg "ref" pr)) := by
  have hts : targetSideOf cfg = false := by simp [targetSideOf, h5, h7]
  have hss : sourceSideOf cfg = true := by simp [sourceSideOf, h1, h2]
  refine ⟨hts, fun files scorer statsFn => ?_⟩
  have hcheck : checkFilesLoop env (pathArgs cfg) =
      ([GEvent.checkFile "src" ps, GEvent.checkFile "adv_src" pa,
        GEvent.checkFile "ref" pr], some ("ref", pr)) := by
    simp [pathArgs, h1, h2, h5, h7, checkFilesLoop, h3, h4, h6]
  have hg : getArgs cfg env =
      ([GEvent.checkFile "src" ps, GEvent.checkFile "adv_src" pa,
        GEvent.checkFile "ref" pr], Except.error (fileMsg "ref" pr)) := by
    simp only [getArgs]
    rw [if_neg (by simp [hss])]
    simp [hcheck]
  simp [program, hg]

/-- Witness for C9: `--src a --adv-src b --ref r` with `r` missing and no
`--out`: the target side is inactive, the run still fails on `ref`. -/
theorem C9_inactive_pipeline_validation_witness :
    targetSideOf ⟨"chrf", some "a", some "b", some "r", none, none,
        none, none, 100, false, []⟩ = false ∧
    program
      ⟨"chrf", some "a", some "b", some "r", none, none, none, none,
        100, false, []⟩
      ⟨fun s => s != "r", id, fun _ => [], ["chrf"]⟩ (fun _ => [])
      ⟨fun _ _ _ => [], fun _ _ _ _ => [], "chrf"⟩ (fun _ => (0, 0, 0, 0)) =
      ([GEvent.checkFile "src" "a", GEvent.checkFile "adv_src" "b",
        GEvent.checkFile "ref" "r"], [], some (fileMsg "ref" "r")) := by
  have h := C9_inactive_pipeline_validation
    ⟨"chrf", some "a", some "b", some "r", none, none, none, none,
      100, false, []⟩
    ⟨fun s => s != "r", id, fun _ => [], ["chrf"]⟩
    "a" "b" "r" rfl rfl rfl rfl rfl rfl rfl
  exact ⟨h.1, h.2 (fun _ => [])
    ⟨fun _ _ _ => [], fun _ _ _ _ => [], "chrf"⟩ (fun _ => (0, 0, 0, 0))⟩

end Teapot
